import Mathlib

/-!
Verification of the Rio Hondo schedule parser
(`src/collectors/rio_hondo/parser.py`, data model in `src/models.py`).

The Python code is shallowly embedded: a `<tr>` row (after BeautifulSoup
parsing) is modelled as a list of `Cell`s, where each `Cell` records its
class attribute list, its `colspan` attribute, its anchors, its images and
the string that `get_text(strip=True)` returns (modelled as trimming the
stored raw text).  All string manipulation used by the parser (lowercase,
trim, substring search, split, join) is implemented as executable Lean
functions over character lists, mirroring the Python semantics.  Python
`float`/`int` conversion of the stripped numeric text is modelled over `ℚ`
and `Nat`; a conversion that would raise `ValueError` is an `Option.none`,
which the surrounding `try/except` maps to the documented default.
-/

set_option autoImplicit false

/-! ## Character and string helpers (Python string semantics) -/

/-- Python whitespace as used by `str.strip` / `\s` (ASCII range). -/
def isSpaceChar (c : Char) : Bool :=
  c = ' ' || c = '\t' || c = '\n' || c = '\r' || c = '\x0b' || c = '\x0c'

/-- Python regex `\w` (ASCII range). -/
def isWordChar (c : Char) : Bool :=
  c.isAlphanum || c = '_'

/-- `leadsWith pat l` is true when `pat` occurs at the start of `l`. -/
def leadsWith : List Char → List Char → Bool
  | [], _ => true
  | _ :: _, [] => false
  | a :: pat, b :: l => if a = b then leadsWith pat l else false

/-- True when `pat` occurs somewhere inside `l` (Python `pat in l`). -/
def hasSubAux (pat : List Char) : List Char → Bool
  | [] => leadsWith pat []
  | c :: l => leadsWith pat (c :: l) || hasSubAux pat l

/-- Python `needle in hay` for strings. -/
def hasSub (hay needle : String) : Bool :=
  hasSubAux needle.toList hay.toList

/-- Python `str.lower()` (ASCII). -/
def strToLower (s : String) : String :=
  String.mk (s.toList.map Char.toLower)

/-- Characters of `s` with leading and trailing whitespace removed. -/
def trimChars (cs : List Char) : List Char :=
  ((cs.dropWhile isSpaceChar).reverse.dropWhile isSpaceChar).reverse

/-- Python `str.strip()`. -/
def strTrim (s : String) : String :=
  String.mk (trimChars s.toList)

/-- Python `sep.join(l)`. -/
def joinSep (sep : String) (l : List String) : String :=
  match l with
  | [] => ""
  | x :: xs => String.mk (xs.foldl (fun acc y => acc ++ sep.toList ++ y.toList) x.toList)

/-- Python `''.join(l)`. -/
def concatStrs (l : List String) : String :=
  String.mk (l.foldl (fun acc y => acc ++ y.toList) [])

/-- Python `s.split(c)` for a one-character separator. -/
def splitOnCh (c : Char) : List Char → List (List Char)
  | [] => [[]]
  | x :: xs =>
    let r := splitOnCh c xs
    if x = c then [] :: r
    else
      match r with
      | [] => [[x]]
      | y :: ys => (x :: y) :: ys

/-- First occurrence of `pat` in a character list: the part before it and
the part after it (Python `s.split(pat, 1)` when it returns two parts). -/
def breakOnSub (pat : List Char) : List Char → Option (List Char × List Char)
  | [] => none
  | c :: cs =>
    if leadsWith pat (c :: cs) && !pat.isEmpty then some ([], (c :: cs).drop pat.length)
    else
      match breakOnSub pat cs with
      | some (pre, post) => some (c :: pre, post)
      | none => none

/-- Fuelled worker for `removeAllSub`. -/
def removeAllSubGo (pat : List Char) : Nat → List Char → List Char
  | _, [] => []
  | 0, l => l
  | n + 1, c :: cs =>
    if leadsWith pat (c :: cs) && !pat.isEmpty then removeAllSubGo pat n ((c :: cs).drop pat.length)
    else c :: removeAllSubGo pat n cs

/-- Python `s.replace(pat, '')`: delete every occurrence of `pat`. -/
def removeAllSub (s pat : String) : String :=
  String.mk (removeAllSubGo pat.toList s.toList.length s.toList)

/-- Numeric value of a digit string (`int` on an all-digit string). -/
def natOfDigits (s : String) : Nat :=
  s.toList.foldl (fun n c => n * 10 + (c.toNat - 48)) 0

/-- Code-point lexicographic `≤` on strings (Python string comparison). -/
def lexLeChars : List Char → List Char → Bool
  | [], _ => true
  | _ :: _, [] => false
  | a :: as, b :: bs => if a = b then lexLeChars as bs else decide (a.toNat < b.toNat)

/-- Insert into a lexicographically sorted list. -/
def insertStr (x : String) : List String → List String
  | [] => [x]
  | y :: ys => if lexLeChars x.toList y.toList then x :: y :: ys else y :: insertStr x ys

/-- Insertion sort by code-point order (Python `sorted` on strings). -/
def sortStrings (l : List String) : List String :=
  l.foldr insertStr []

/-- Python `sorted(list(set(l)))`: unique values in ascending order. -/
def sortedDedup (l : List String) : List String :=
  sortStrings l.dedup

/-- Python `a or b` for an optional string `a` (falsy: `None` and `""`). -/
def pyOrStr (a : Option String) (b : String) : String :=
  match a with
  | some s => if s = "" then b else s
  | none => b

/-- Truthiness of an optional attribute value (`None` and `""` are falsy). -/
def truthyAttr : Option String → Bool
  | some s => s != ""
  | none => false

/-! ## DOM model: what BeautifulSoup hands to the parser for one `<tr>` -/

/-- An `<a>` element inside a table cell. -/
structure Anchor where
  href : Option String
  text : String
deriving DecidableEq

/-- An `<img>` element inside a table cell. -/
structure Img where
  src : Option String
deriving DecidableEq

/-- A `<td>` element: class list, `colspan` attribute, anchors and images
in document order, and its raw text (`get_text(strip=True)` is modelled
as trimming this text). -/
structure Cell where
  classes : List String
  colspan : Option String
  anchors : List Anchor
  imgs : List Img
  text : String
deriving DecidableEq

/-! ## Data model (`src/models.py`) -/

/-- `models.MeetingTime`. -/
structure MeetingTime where
  days : String
  start_time : Option String
  end_time : Option String
  is_arranged : Bool
deriving DecidableEq

/-- `models.Enrollment`. -/
structure Enrollment where
  capacity : Nat
  actual : Nat
  remaining : Nat
deriving DecidableEq

/-- `models.Course` (fields in source order; `units` is modelled on `ℚ`). -/
structure Course where
  crn : String
  subject : String
  course_number : String
  title : String
  units : ℚ
  instructor : String
  instructor_email : Option String
  meeting_times : List MeetingTime
  location : String
  enrollment : Enrollment
  status : String
  section_type : String
  zero_textbook_cost : Bool
  delivery_method : String
  weeks : Nat
  start_date : Option String
  end_date : Option String
  additional_hours : Option String
  book_link : Option String
deriving DecidableEq

/-- The two keys of the `metadata` dict that `ScheduleData.model_post_init`
writes (`None` models an absent key). -/
structure MetaDict where
  total_courses : Option Nat
  departments : Option (List String)
deriving DecidableEq

/-- `models.ScheduleData`; `collection_timestamp` is modelled as a number
supplied by the ambient clock. -/
structure ScheduleData where
  term : String
  term_code : String
  collection_timestamp : Nat
  source_url : String
  college_id : String
  collector_version : String
  courses : List Course
  metadata : Option MetaDict
  total_courses : Option Nat
  departments : Option (List String)
deriving DecidableEq

/-- `ScheduleData.model_post_init` (`src/models.py`, lines 62-83): move the
deprecated `total_courses` / `departments` fields into `metadata` and clear
them. -/
def ScheduleData.model_post_init (s : ScheduleData) : ScheduleData :=
  let md0 := s.metadata.getD ⟨none, none⟩
  let md1 := if md0.total_courses.isNone then { md0 with total_courses := some s.courses.length } else md0
  let md2 := if md1.departments.isNone then
      { md1 with departments := some (sortedDedup (s.courses.map Course.subject)) }
    else md1
  let md3 := match s.total_courses with
    | some v => { md2 with total_courses := some v }
    | none => md2
  let md4 := match s.departments with
    | some d => { md3 with departments := some d }
    | none => md3
  { s with metadata := some md4, total_courses := none, departments := none }

/-- The mutable context the parser instance carries (`__init__`,
`src/collectors/rio_hondo/parser.py` lines 18-20). -/
structure ParserState where
  current_subject : Option String
  current_course_title : Option String
deriving DecidableEq

/-- State of a freshly constructed `RioHondoScheduleParser`. -/
def initState : ParserState := ⟨none, none⟩

/-! ## Regex matchers used by the parser -/

/-- `re.match(r'^(\w+)\s*-', s)`: the leading word before an optional-space
dash (used on subject-header text). -/
def matchSubjectCode (s : String) : Option String :=
  let cs := s.toList
  let w := cs.takeWhile isWordChar
  if w.isEmpty then none
  else
    match (cs.drop w.length).dropWhile isSpaceChar with
    | '-' :: _ => some (String.mk w)
    | _ => none

/-- `re.match(r'^(\w+)\s+(\w+)\s*-', s)`: subject code and course number
from a course-header string. -/
def matchCourseCode (s : String) : Option (String × String) :=
  let cs := s.toList
  let w1 := cs.takeWhile isWordChar
  if w1.isEmpty then none
  else
    let r1 := cs.drop w1.length
    let sp := r1.takeWhile isSpaceChar
    if sp.isEmpty then none
    else
      let r2 := r1.drop sp.length
      let w2 := r2.takeWhile isWordChar
      if w2.isEmpty then none
      else
        match (r2.drop w2.length).dropWhile isSpaceChar with
        | '-' :: _ => some (String.mk w1, String.mk w2)
        | _ => none

/-- One `\d{2}/\d{2}` group at the head of a character list. -/
def takeDatePart : List Char → Option (String × List Char)
  | d1 :: d2 :: '/' :: d3 :: d4 :: rest =>
    if d1.isDigit && d2.isDigit && d3.isDigit && d4.isDigit then
      some (String.mk [d1, d2, '/', d3, d4], rest)
    else none
  | _ => none

/-- `re.match(r'(\d{2}/\d{2})\s*-\s*(\d{2}/\d{2})', s)`. -/
def matchDateRange (s : String) : Option (String × String) :=
  match takeDatePart s.toList with
  | none => none
  | some (p1, rest) =>
    match rest.dropWhile isSpaceChar with
    | '-' :: rest2 =>
      match takeDatePart (rest2.dropWhile isSpaceChar) with
      | none => none
      | some (p2, _) => some (p1, p2)
    | _ => none

/-! ## The parser (`src/collectors/rio_hondo/parser.py`) -/

/-- `_get_td_text(tds, index)`: bounds-checked cell text. -/
def getTdText (tds : List Cell) (i : Nat) : String :=
  match tds.get? i with
  | some td => strTrim td.text
  | none => ""

/-- `get_text(strip=True)` of one cell. -/
def getText (td : Cell) : String :=
  strTrim td.text

/-- Does an anchor match `find('a', href=re.compile(r'p_course_popup'))`? -/
def anchorMatchesPopup (a : Anchor) : Bool :=
  hasSub (a.href.getD "") "p_course_popup"

/-- `td.find('a', href=re.compile(r'p_course_popup'))`. -/
def tdPopup (td : Cell) : Option Anchor :=
  td.anchors.find? anchorMatchesPopup

/-- `row.find('a', href=re.compile(r'p_course_popup'))` over a whole row. -/
def findPopupAnchor (row : List Cell) : Option Anchor :=
  ((row.map Cell.anchors).flatten).find? anchorMatchesPopup

/-- Does a `<td>` carry one of the alternating-row style classes
(`re.compile(r'default[12]')`)? -/
def isDefaultTd (td : Cell) : Bool :=
  td.classes.any (fun c => hasSub c "default1" || hasSub c "default2")

/-- `_is_course_row` (lines 77-87): a row with a popup link anywhere is
promoted immediately; otherwise the row must have at least 15 styled cells
and a popup link (which is impossible in that branch). -/
def is_course_row (row : List Cell) : Bool :=
  let crn_link := findPopupAnchor row
  match crn_link with
  | some _ => true
  | none =>
    let tds := row.filter isDefaultTd
    decide (15 ≤ tds.length) && crn_link.isSome

/-- `row.find('td', attrs=clazz matching r'subject_header')`. -/
def findSubjectHeaderTd (row : List Cell) : Option Cell :=
  row.find? (fun td => td.classes.any (fun c => hasSub c "subject_header"))

/-- `row.find('td', clazz equal to 'crn_header')`. -/
def findCourseHeaderTd (row : List Cell) : Option Cell :=
  row.find? (fun td => td.classes.any (fun c => c = "crn_header"))

/-- `_parse_subject_header` (lines 61-68). -/
def parse_subject_header (st : ParserState) (td : Cell) : ParserState :=
  match matchSubjectCode (getText td) with
  | some code => { st with current_subject := some code }
  | none => st

/-- `_parse_course_header` (lines 70-75). -/
def parse_course_header (st : ParserState) (td : Cell) : ParserState :=
  { st with current_course_title := some (getText td) }

/-- `_parse_course_code` (lines 232-241). -/
def parse_course_code (course_header : Option String) : String × String :=
  match course_header with
  | none => ("", "")
  | some h =>
    if h = "" then ("", "")
    else
      match matchCourseCode h with
      | some p => p
      | none => ("", "")

/-- `_extract_course_title` (lines 243-252): text after the first `" - "`. -/
def extract_course_title (course_header : Option String) : String :=
  match course_header with
  | none => "Unknown Course"
  | some h =>
    if h = "" then "Unknown Course"
    else
      match breakOnSub (' ' :: '-' :: [' ']) h.toList with
      | some (_, post) => strTrim (String.mk post)
      | none => h

/-- `re.sub(r'[^\d.]', '', s)`. -/
def stripToDigitsDot (s : String) : String :=
  String.mk (s.toList.filter (fun c => c.isDigit || c = '.'))

/-- `re.sub(r'[^\d]', '', s)`. -/
def stripToDigits (s : String) : String :=
  String.mk (s.toList.filter Char.isDigit)

/-- The rational `num / den` built directly in lowest terms (the arguments
are already coprime whenever this is reached from `decimalVal`). -/
def mkRatRed (num den : Nat) : ℚ :=
  if h : den ≠ 0 ∧ Nat.Coprime num den then ⟨num, den, h.1, h.2⟩ else 0

/-- The exact value of the decimal `ip.fp` with `k` fractional digits. -/
def decimalVal (ip fp k : Nat) : ℚ :=
  let n := ip * 10 ^ k + fp
  let d := 10 ^ k
  let g := Nat.gcd n d
  mkRatRed (n / g) (d / g)

/-- Python `float` on a digits-and-dots string: defined when the string has
at most one dot and at least one digit; `none` models `ValueError`. -/
def pyFloatOfClean (s : String) : Option ℚ :=
  let cs := s.toList
  if (cs.filter (fun c => c = '.')).length ≤ 1 ∧ 1 ≤ (cs.filter Char.isDigit).length then
    match splitOnCh '.' cs with
    | [ip] => some (decimalVal (natOfDigits (String.mk ip)) 0 0)
    | [ip, fp] => some (decimalVal (natOfDigits (String.mk ip)) (natOfDigits (String.mk fp)) fp.length)
    | _ => none
  else none

/-- `_parse_units` (lines 254-261): strip, convert, default `0.0`. -/
def parse_units (units_text : String) : ℚ :=
  let clean_text := stripToDigitsDot units_text
  if clean_text = "" then 0
  else
    match pyFloatOfClean clean_text with
    | some v => v
    | none => 0

/-- `_parse_int` (lines 263-270): strip, convert, default `0`. -/
def parse_int (text : String) : Nat :=
  let clean_text := stripToDigits text
  if clean_text = "" then 0 else natOfDigits clean_text

/-- `_parse_date_range` (lines 340-350). -/
def parse_date_range (date_text : String) : Option String × Option String :=
  if date_text = "" then (none, none)
  else
    match matchDateRange date_text with
    | some (a, b) => (some a, some b)
    | none => (none, none)

/-- The closed set of accepted day codes (line 298). -/
def dayCodeOk (d : String) : Bool :=
  d = "M" || d = "T" || d = "W" || d = "R" || d = "F" || d = "S" ||
  d = "MW" || d = "TR" || d = "MWF" || d = "MTWR" || d = "MTWRF"

/-- Day tokens collected from slots 1, 3 and 5 of the meeting block
(lines 292-301). -/
def extractDays (meeting_info : List String) : String :=
  let pick := fun (i : Nat) =>
    match meeting_info.get? i with
    | some s =>
      let d := strTrim s
      if d ≠ "" then (if dayCodeOk d then some d else none) else none
    | none => none
  concatStrs ([1, 3, 5].filterMap pick)

/-- `_parse_meeting_times` (lines 272-338). -/
def parse_meeting_times (meeting_info : List String) (location : String) : List MeetingTime :=
  let meeting_text := joinSep " " meeting_info
  if hasSub (strToLower meeting_text) "arr" || hasSub (strToLower meeting_text) "arr in addition" then
    [⟨"ARR", none, none, true⟩]
  else
    let scheduled :=
      if 8 ≤ meeting_info.length then
        let days := extractDays meeting_info
        let time_str := if 7 < meeting_info.length then (meeting_info.get? 7).getD "" else ""
        if days ≠ "" && time_str ≠ "" && hasSub time_str "-" && hasSub time_str ":" then
          let time_parts := splitOnCh '-' time_str.toList
          if time_parts.length = 2 then
            [⟨days, some (strTrim (String.mk (time_parts.getD 0 []))),
              some (strTrim (String.mk (time_parts.getD 1 []))), false⟩]
          else []
        else []
      else []
    if scheduled.isEmpty then
      if hasSub (strToLower location) "online" && hasSub (strToLower location) "async" then
        [⟨"ASYNC", none, none, true⟩]
      else
        [⟨"TBA", none, none, true⟩]
    else scheduled

/-- `_determine_delivery_method` (lines 352-367). -/
def determine_delivery_method (location : String) (meeting_times : List MeetingTime) : String :=
  let l := strToLower location
  if hasSub l "online" && hasSub l "async" then "Online ASYNC"
  else if hasSub l "online" && hasSub l "sync" then "Online SYNC"
  else if hasSub l "online" then "Online"
  else if hasSub l "hybrid" then "Hybrid"
  else if meeting_times.any (fun mt => mt.is_arranged) then "Arranged"
  else "In-Person"

/-- CRN extraction (lines 101-109): scan the first five cells for the first
one containing a popup link and take that link's stripped text. -/
def find_crn (tds : List Cell) : Option String :=
  match (tds.take 5).find? (fun td => (tdPopup td).isSome) with
  | some td => (tdPopup td).map (fun a => strTrim a.text)
  | none => none

/-- Field extraction and record assembly of `_parse_course_row`
(lines 114-220), after the guards have passed. -/
def assembleCourse (st : ParserState) (tds : List Cell) (crn : String) : Course :=
  let pc := parse_course_code st.current_course_title
  let subject := if pc.1 = "" then pyOrStr st.current_subject "UNKNOWN" else pc.1
  let status := getTdText tds 0
  let book_link :=
    if 3 < tds.length then ((tds.get? 3).bind (fun td => td.anchors.head?)).bind Anchor.href
    else none
  let zero_textbook_cost :=
    if 4 < tds.length then
      match (tds.get? 4).bind (fun td => td.imgs.head?) with
      | some im => hasSub (im.src.getD "") "ZeroCostTextbook"
      | none => false
    else false
  let units := parse_units (getTdText tds 5)
  let meeting_info :=
    if 6 < tds.length then
      if truthyAttr ((tds.get? 6).bind Cell.colspan) then
        ["", "", "", "", "", "", "", getTdText tds 6]
      else (List.range' 6 (min 14 tds.length - 6)).map (fun i => getTdText tds i)
    else []
  let location := if 14 < tds.length then getTdText tds 14 else ""
  let capacity := if 15 < tds.length then parse_int (getTdText tds 15) else 0
  let actual := if 16 < tds.length then parse_int (getTdText tds 16) else 0
  let remaining := if 17 < tds.length then parse_int (getTdText tds 17) else 0
  let instructor0 := if 18 < tds.length then getTdText tds 18 else "TBA"
  let instructor := if instructor0 = "" || strTrim instructor0 = "" then "TBA" else instructor0
  let instructor_email :=
    if 19 < tds.length then
      match (tds.get? 19).bind (fun td => td.anchors.find? (fun a => hasSub (a.href.getD "") "mailto:")) with
      | some a => some (removeAllSub (a.href.getD "") "mailto:")
      | none => none
    else none
  let date_range := if 20 < tds.length then getTdText tds 20 else ""
  let dates := parse_date_range date_range
  let weeks :=
    if 21 < tds.length then
      let w := parse_int (getTdText tds 21)
      if w = 0 then 16 else w
    else 16
  let meeting_times := parse_meeting_times meeting_info location
  { crn := crn, subject := subject, course_number := pc.2,
    title := extract_course_title st.current_course_title,
    units := units, instructor := instructor, instructor_email := instructor_email,
    meeting_times := meeting_times, location := location,
    enrollment := ⟨capacity, actual, remaining⟩, status := status,
    section_type := "LEC", zero_textbook_cost := zero_textbook_cost,
    delivery_method := determine_delivery_method location meeting_times,
    weeks := weeks, start_date := dates.1, end_date := dates.2,
    additional_hours := none, book_link := book_link }

/-- `_parse_course_row` (lines 89-224).  The whole body sits inside
`try/except`, so any failure yields `none`; in this embedding every modelled
operation is total, and `none` arises exactly from the explicit guard
returns. -/
def parse_course_row (st : ParserState) (tds : List Cell) : Option Course :=
  if tds.length < 10 then none
  else if tds.length < 15 then none
  else
    match find_crn tds with
    | none => none
    | some crn =>
      if crn = "" then none
      else some (assembleCourse st tds crn)

/-- One iteration of the row loop of `parse_schedule_html` (lines 30-47):
subject header first, then course header, then data row. -/
def stepRow (st : ParserState) (row : List Cell) : ParserState × Option Course :=
  match findSubjectHeaderTd row with
  | some td => (parse_subject_header st td, none)
  | none =>
    match findCourseHeaderTd row with
    | some td => (parse_course_header st td, none)
    | none =>
      if is_course_row row then (st, parse_course_row st row) else (st, none)

/-- The full row loop: threads the context and accumulates courses in
encounter order. -/
def processRows : ParserState → List (List Cell) → ParserState × List Course
  | st, [] => (st, [])
  | st, row :: rest =>
    let r := processRows (stepRow st row).1 rest
    match (stepRow st row).2 with
    | some c => (r.1, c :: r.2)
    | none => r

/-- `parse_schedule_html` (lines 22-59).  `now` models `datetime.now()`;
the pair's second component is the parser instance's context after the
call (the mutated `self`). -/
def parse_schedule_html (st : ParserState) (rows : List (List Cell))
    (term term_code source_url : String) (now : Nat) : ScheduleData × ParserState :=
  let r := processRows st rows
  (ScheduleData.model_post_init
    { term := term, term_code := term_code, collection_timestamp := now,
      source_url := source_url, college_id := "rio-hondo", collector_version := "1.0.0",
      courses := r.2, metadata := none,
      total_courses := some r.2.length,
      departments := some (sortedDedup (r.2.map Course.subject)) }, r.1)

/-! ## Concrete inputs used by witnesses and counterexamples -/

/-- A plain `<td>` with one of the alternating row styles. -/
def mkCell (t : String) : Cell := ⟨["default1"], none, [], [], t⟩

/-- A CRN cell: its anchor targets the course-detail popup. -/
def crnCell (crn : String) : Cell :=
  ⟨["default1"], none, [⟨some ("/pls/outp/p_course_popup?crn=" ++ crn), crn⟩], [], crn⟩

/-- An instructor-email cell. -/
def emailCell : Cell :=
  ⟨["default1"], none, [⟨some "mailto:jsmith@example.edu", "Email"⟩], [], "Email"⟩

/-- A well-formed 22-cell data row in the observed Rio Hondo layout. -/
def mkDataRow (instructorName : String) : List Cell :=
  [mkCell "Open", mkCell "LEC", crnCell "12345", mkCell "", mkCell "",
   mkCell "3.0",
   mkCell "", mkCell "M", mkCell "", mkCell "W", mkCell "", mkCell "", mkCell "",
   mkCell "9:00am - 10:50am",
   mkCell "A207", mkCell "30", mkCell "25", mkCell "5",
   mkCell instructorName, emailCell, mkCell "01/13 - 05/23", mkCell "16"]

/-- The data row used throughout the witnesses. -/
def dataRowEx : List Cell := mkDataRow "Smith, John"

/-- Same row with a different instructor (same CRN cell). -/
def dataRowEx2 : List Cell := mkDataRow "Doe, Jane"

/-- A one-cell row holding a popup link: too short to be a data row. -/
def popupOnlyRow : List Cell := [crnCell "99999"]

/-- A 15-cell data row: no enrollment, instructor, date or weeks cells. -/
def shortRowEx : List Cell := (mkDataRow "Kim, Lee").take 15

/-- The merged meeting-time cell of an online section with arranged hours. -/
def colspanCell : Cell := ⟨["default1"], some "8", [], [], "2.5 hrs arr in addition to class"⟩

/-- A 15-cell row whose meeting-time block is one merged cell and whose
location is asynchronous online. -/
def colspanRowEx : List Cell :=
  [mkCell "Open", mkCell "LEC", crnCell "54321", mkCell "", mkCell "", mkCell "3.0",
   colspanCell,
   mkCell "", mkCell "", mkCell "", mkCell "", mkCell "", mkCell "", mkCell "",
   mkCell "Online ASYNC"]

/-- A subject-header row. -/
def subjRowEx : List Cell := [⟨["subject_header"], none, [], [], "ACCT - Accounting"⟩]

/-- A course-header row. -/
def crseHdrRowEx : List Cell := [⟨["crn_header"], none, [], [], "ACCT 101 - Financial Accounting"⟩]

/-- Placeholder record for `Option.getD`. -/
def dummyCourse : Course :=
  ⟨"", "", "", "", 0, "", none, [], "", ⟨0, 0, 0⟩, "", "", false, "", 0, none, none, none, none⟩

/-- The course parsed from `dataRowEx` with a fresh context. -/
def courseEx : Course := (parse_course_row initState dataRowEx).getD dummyCourse

/-- The course parsed from `shortRowEx` with a fresh context. -/
def courseShortEx : Course := (parse_course_row initState shortRowEx).getD dummyCourse

/-- The course parsed from `colspanRowEx` with a fresh context. -/
def courseColEx : Course := (parse_course_row initState colspanRowEx).getD dummyCourse

example : (parse_course_row initState dataRowEx).isSome := by decide
example : courseEx.crn = "12345" := by decide
example : courseEx.instructor = "Smith, John" := by decide
example : courseEx.subject = "UNKNOWN" := by decide
example : courseEx.units = 3 := by decide
example : courseEx.meeting_times = [⟨"MW", some "9:00am", some "10:50am", false⟩] := by decide
example : courseEx.delivery_method = "In-Person" := by decide
example : courseEx.enrollment = ⟨30, 25, 5⟩ := by decide
example : courseEx.start_date = some "01/13" ∧ courseEx.end_date = some "05/23" := by decide
example : courseEx.instructor_email = some "jsmith@example.edu" := by decide
example : courseShortEx.instructor = "TBA" := by decide
example : courseShortEx.location = "A207" := by decide
example : courseColEx.meeting_times = [⟨"ARR", none, none, true⟩] := by decide
example : is_course_row popupOnlyRow = true := by decide
example : parse_course_row initState popupOnlyRow = none := by decide
example : (parse_schedule_html initState [] "t" "tc" "u" 0).1.total_courses = none := by decide
example :
    (parse_schedule_html initState [dataRowEx, subjRowEx] "t" "tc" "u" 0).1.courses.map
      Course.subject = ["UNKNOWN"] := by decide
example :
    (parse_schedule_html (parse_schedule_html initState [dataRowEx, subjRowEx] "t" "tc" "u" 0).2
      [dataRowEx, subjRowEx] "t" "tc" "u" 0).1.courses.map Course.subject = ["ACCT"] := by decide
example :
    (parse_schedule_html initState [dataRowEx, dataRowEx2] "t" "tc" "u" 0).1.courses.map
      Course.crn = ["12345", "12345"] := by decide
example :
    (parse_schedule_html initState [subjRowEx, crseHdrRowEx, dataRowEx] "t" "tc" "u" 0).1.courses.map
      Course.subject = ["ACCT"] := by decide
example :
    (parse_schedule_html initState [subjRowEx, crseHdrRowEx, dataRowEx] "t" "tc" "u" 0).1.courses.map
      Course.title = ["Financial Accounting"] := by decide
example :
    (parse_schedule_html initState [dataRowEx] "t" "tc" "u" 0).1.metadata =
      some ⟨some 1, some ["UNKNOWN"]⟩ := by decide

/-! ## Helper lemmas -/

theorem leadsWith_append {a b : List Char} : ∀ {l : List Char},
    leadsWith (a ++ b) l = true → leadsWith a l = true := by
  induction a with
  | nil => intro l _; rfl
  | cons x xs ih =>
    intro l h
    cases l with
    | nil => simp [leadsWith] at h
    | cons y ys =>
      simp only [List.cons_append, leadsWith] at h ⊢
      split at h
      · simp only [*, if_true]
        exact ih h
      · exact absurd h (by simp)

theorem hasSubAux_of_append {a b : List Char} : ∀ {l : List Char},
    hasSubAux (a ++ b) l = true → hasSubAux a l = true := by
  intro l
  induction l with
  | nil =>
    simp only [hasSubAux]
    exact leadsWith_append
  | cons c cs ih =>
    simp only [hasSubAux, Bool.or_eq_true]
    rintro (h | h)
    · exact Or.inl (leadsWith_append h)
    · exact Or.inr (ih h)

/-- An occurrence of the long marker is in particular an occurrence of
`"arr"`, so the disjunction on line 278 collapses to its first test. -/
theorem arr_absorb (x : String) :
    (hasSub x "arr" || hasSub x "arr in addition") = hasSub x "arr" := by
  cases h : hasSub x "arr" with
  | true => simp
  | false =>
    simp only [h, Bool.false_or]
    cases hb : hasSub x "arr in addition" with
    | false => rfl
    | true =>
      have h' : hasSub x "arr" = true :=
        hasSubAux_of_append (a := "arr".toList) (b := " in addition".toList) hb
      rw [h] at h'
      cases h'

/-- The meeting-time interpreter never returns an empty list. -/
theorem parse_meeting_times_ne_nil (mi : List String) (loc : String) :
    parse_meeting_times mi loc ≠ [] := by
  simp only [parse_meeting_times]
  split_ifs <;> simp_all [List.isEmpty_iff]

/-- Every arranged entry the interpreter emits has both times absent. -/
theorem parse_meeting_times_arranged {mi : List String} {loc : String} {mt : MeetingTime}
    (h : mt ∈ parse_meeting_times mi loc) (ha : mt.is_arranged = true) :
    mt.start_time = none ∧ mt.end_time = none := by
  simp only [parse_meeting_times] at h
  split_ifs at h <;> simp_all

/-- A produced course comes from a row that passed every guard, and is the
assembled record for the extracted CRN. -/
theorem parse_course_row_some {st : ParserState} {tds : List Cell} {c : Course}
    (h : parse_course_row st tds = some c) :
    15 ≤ tds.length ∧ ∃ crn, find_crn tds = some crn ∧ crn ≠ "" ∧ c = assembleCourse st tds crn := by
  by_cases h10 : tds.length < 10
  · simp [parse_course_row, h10] at h
  · by_cases h15 : tds.length < 15
    · simp [parse_course_row, h10, h15] at h
    · refine ⟨by omega, ?_⟩
      cases hf : find_crn tds with
      | none => simp [parse_course_row, h10, h15, hf] at h
      | some crn =>
        by_cases hcrn : crn = ""
        · simp [parse_course_row, h10, h15, hf, hcrn] at h
        · refine ⟨crn, rfl, hcrn, ?_⟩
          simp only [parse_course_row, h10, h15, hf, if_neg, if_false] at h
          simp [hcrn] at h
          exact h.symm

/-- A course emitted by the row loop comes from `_parse_course_row` on that
row, and a data row never changes the tracked context. -/
theorem stepRow_some {st : ParserState} {row : List Cell} {c : Course}
    (h : (stepRow st row).2 = some c) :
    parse_course_row st row = some c ∧ (stepRow st row).1 = st := by
  simp only [stepRow] at h ⊢
  cases hs : findSubjectHeaderTd row <;> simp only [hs] at h ⊢
  · cases hc : findCourseHeaderTd row <;> simp only [hc] at h ⊢
    · split_ifs at h ⊢
      simp_all
    · cases h
  · cases h

theorem processRows_cons_fst (st : ParserState) (row : List Cell) (rest : List (List Cell)) :
    (processRows st (row :: rest)).1 = (processRows (stepRow st row).1 rest).1 := by
  simp only [processRows]
  cases (stepRow st row).2 <;> rfl

theorem processRows_cons_snd (st : ParserState) (row : List Cell) (rest : List (List Cell)) :
    (processRows st (row :: rest)).2 =
      (match (stepRow st row).2 with
       | some c => c :: (processRows (stepRow st row).1 rest).2
       | none => (processRows (stepRow st row).1 rest).2) := by
  simp only [processRows]
  cases (stepRow st row).2 <;> rfl

/-- Any member of the accumulated course list was produced by
`_parse_course_row` from some row under some context. -/
theorem mem_processRows {c : Course} : ∀ {rows : List (List Cell)} {st : ParserState},
    c ∈ (processRows st rows).2 → ∃ st' row, parse_course_row st' row = some c := by
  intro rows
  induction rows with
  | nil => intro st h; simp [processRows] at h
  | cons row rest ih =>
    intro st h
    rw [processRows_cons_snd] at h
    cases hs : (stepRow st row).2 with
    | none => rw [hs] at h; exact ih h
    | some c' =>
      rw [hs] at h
      rcases List.mem_cons.mp h with rfl | hm
      · exact ⟨st, row, (stepRow_some hs).1⟩
      · exact ih hm

theorem processRows_append_fst : ∀ (xs : List (List Cell)) (st : ParserState) (ys : List (List Cell)),
    (processRows st (xs ++ ys)).1 = (processRows (processRows st xs).1 ys).1 := by
  intro xs
  induction xs with
  | nil => intro st ys; rfl
  | cons row rest ih =>
    intro st ys
    simp only [List.cons_append, processRows_cons_fst, ih]

theorem processRows_append_snd : ∀ (xs : List (List Cell)) (st : ParserState) (ys : List (List Cell)),
    (processRows st (xs ++ ys)).2 =
      (processRows st xs).2 ++ (processRows (processRows st xs).1 ys).2 := by
  intro xs
  induction xs with
  | nil => intro st ys; rfl
  | cons row rest ih =>
    intro st ys
    simp only [List.cons_append, processRows_cons_snd, processRows_cons_fst, ih]
    cases (stepRow st row).2 <;> simp

/-- `model_post_init` never changes the course list, and the builder's
course list is the row loop's accumulator. -/
theorem parse_schedule_html_courses (st : ParserState) (rows : List (List Cell))
    (term term_code source_url : String) (now : Nat) :
    (parse_schedule_html st rows term term_code source_url now).1.courses =
      (processRows st rows).2 := by
  simp [parse_schedule_html, ScheduleData.model_post_init]

/-! ## Claims -/

/-- C3: whenever the concatenated text of the meeting-time block contains
the case-insensitive token `"arr"`, the interpreter emits exactly one
`MeetingTime` with `days = "ARR"` and `is_arranged = true`, regardless of
any other day or time tokens in the block. -/
theorem C3_arr_marker_wins (mi : List String) (loc : String)
    (h : hasSub (strToLower (joinSep " " mi)) "arr" = true) :
    parse_meeting_times mi loc = [⟨"ARR", none, none, true⟩] := by
  simp only [parse_meeting_times, h, Bool.true_or, if_true]

/-- C3 witness: a block whose trailing cell reads `"3 hrs arr"` while other
cells carry day and time tokens still yields the single `ARR` entry. -/
theorem C3_arr_marker_wins_witness :
    hasSub (strToLower (joinSep " " ["", "M", "", "W", "", "", "", "3 hrs arr"])) "arr" = true ∧
      parse_meeting_times ["", "M", "", "W", "", "", "", "3 hrs arr"] "A207" =
        [⟨"ARR", none, none, true⟩] :=
  ⟨by decide, C3_arr_marker_wins _ _ (by decide)⟩

/-- C5: every course a parse pass produces has a non-empty `meeting_times`
list, and every arranged entry in it has both times absent. -/
theorem C5_meeting_time_invariants {st : ParserState} {rows : List (List Cell)}
    {term term_code source_url : String} {now : Nat} {c : Course}
    (hc : c ∈ (parse_schedule_html st rows term term_code source_url now).1.courses) :
    c.meeting_times ≠ [] ∧
      ∀ mt ∈ c.meeting_times, mt.is_arranged = true →
        mt.start_time = none ∧ mt.end_time = none := by
  rw [parse_schedule_html_courses] at hc
  obtain ⟨st', row, hp⟩ := mem_processRows hc
  obtain ⟨-, crn, -, -, rfl⟩ := parse_course_row_some hp
  simp only [assembleCourse]
  exact ⟨parse_meeting_times_ne_nil _ _, fun mt hmt ha => parse_meeting_times_arranged hmt ha⟩

/-- C5 witness: the arranged-hours course of `colspanRowEx` is produced by a
pass, its meeting list is non-empty, and its arranged entry carries no
times. -/
theorem C5_meeting_time_invariants_witness :
    courseColEx.meeting_times ≠ [] ∧
      (⟨"ARR", none, none, true⟩ : MeetingTime).start_time = none ∧
      (⟨"ARR", none, none, true⟩ : MeetingTime).end_time = none := by
  have h := C5_meeting_time_invariants
    (show courseColEx ∈ (parse_schedule_html initState [colspanRowEx] "t" "tc" "u" 0).1.courses
      by decide)
  exact ⟨h.1, h.2 ⟨"ARR", none, none, true⟩ (by decide) rfl⟩

theorem mkRatRed_nonneg (n d : Nat) : 0 ≤ mkRatRed n d := by
  unfold mkRatRed
  split
  · exact Rat.num_nonneg.mp (Int.natCast_nonneg n)
  · exact le_refl 0

theorem decimalVal_nonneg (ip fp k : Nat) : 0 ≤ decimalVal ip fp k :=
  mkRatRed_nonneg _ _

theorem pyFloatOfClean_nonneg {t : String} {v : ℚ} (h : pyFloatOfClean t = some v) : 0 ≤ v := by
  simp only [pyFloatOfClean] at h
  split_ifs at h
  split at h
  · simp only [Option.some.injEq] at h
    exact h ▸ decimalVal_nonneg _ _ _
  · simp only [Option.some.injEq] at h
    exact h ▸ decimalVal_nonneg _ _ _
  · cases h

theorem parse_units_nonneg (s : String) : 0 ≤ parse_units s := by
  simp only [parse_units]
  split_ifs
  · exact le_refl 0
  · cases hf : pyFloatOfClean (stripToDigitsDot s) with
    | none => simp [hf]
    | some v => simpa [hf] using pyFloatOfClean_nonneg hf

/-- The seven-space separator prefix contributed by the rewritten colspan
block cannot take part in an `"arr"` occurrence, so the search reduces to
the merged cell's own text. -/
theorem arr_skip_spaces (t : String) :
    hasSub (strToLower (joinSep " " ["", "", "", "", "", "", "", t])) "arr"
      = hasSub (strToLower t) "arr" := rfl

theorem arrAdd_skip_spaces (t : String) :
    hasSub (strToLower (joinSep " " ["", "", "", "", "", "", "", t])) "arr in addition"
      = hasSub (strToLower t) "arr in addition" := rfl

/-- On the 8-slot block the colspan branch builds (seven empty slots and
the merged text last), the interpreter emits `ARR` when the text contains
`"arr"`, and otherwise falls back on the location-driven entry. -/
theorem parse_meeting_times_colspan (t loc : String) :
    parse_meeting_times ["", "", "", "", "", "", "", t] loc =
      (if hasSub (strToLower t) "arr" then [⟨"ARR", none, none, true⟩]
       else if hasSub (strToLower loc) "online" && hasSub (strToLower loc) "async" then
         [⟨"ASYNC", none, none, true⟩]
       else [⟨"TBA", none, none, true⟩]) := by
  have harr : (hasSub (strToLower (joinSep " " ["", "", "", "", "", "", "", t])) "arr"
      || hasSub (strToLower (joinSep " " ["", "", "", "", "", "", "", t])) "arr in addition")
      = hasSub (strToLower t) "arr" := by
    rw [arr_skip_spaces, arrAdd_skip_spaces]
    exact arr_absorb (strToLower t)
  simp only [parse_meeting_times, harr]
  cases hc : hasSub (strToLower t) "arr"
  · simp only [hc, Bool.false_eq_true, if_false]
    rfl
  · simp [hc]

/-- C1 counterexample: a one-cell row whose only cell holds a popup link is
classified as a course row even though it has neither 15 styled cells nor
15 cells at all — signal (a) alone already promotes it. -/
theorem C1_link_only_classified :
    is_course_row popupOnlyRow = true ∧
      (popupOnlyRow.filter isDefaultTd).length < 15 ∧ popupOnlyRow.length < 15 := by
  decide

/-- C1 amended: `_is_course_row` alone promotes any row with a popup link,
but a `Course` is only emitted when the row also has at least 15 cells and
a popup link inside one of its first five cells — so a short row with a
popup link is classified as a course row yet never yields a record. -/
theorem C1_data_row_guards {st : ParserState} {tds : List Cell} {c : Course}
    (h : parse_course_row st tds = some c) :
    15 ≤ tds.length ∧
      (tds.take 5).any (fun td => td.anchors.any anchorMatchesPopup) = true := by
  obtain ⟨h15, crn, hf, -, -⟩ := parse_course_row_some h
  refine ⟨h15, ?_⟩
  simp only [find_crn] at hf
  cases hfd : (tds.take 5).find? (fun td => (tdPopup td).isSome) with
  | none => rw [hfd] at hf; cases hf
  | some td =>
    have hmem := List.mem_of_find?_eq_some hfd
    have hp : (tdPopup td).isSome = true := by simpa using List.find?_some hfd
    rw [Option.isSome_iff_exists] at hp
    obtain ⟨a, ha⟩ := hp
    rw [List.any_eq_true]
    refine ⟨td, hmem, ?_⟩
    rw [List.any_eq_true]
    exact ⟨a, List.mem_of_find?_eq_some ha, List.find?_some ha⟩

/-- C1 witness: the guards are satisfiable — the standard data row passes
both of them and produces a course. -/
theorem C1_data_row_guards_witness :
    15 ≤ dataRowEx.length ∧
      (dataRowEx.take 5).any (fun td => td.anchors.any anchorMatchesPopup) = true :=
  C1_data_row_guards (show parse_course_row initState dataRowEx = some courseEx by decide)

/-- C7: the numeric conversions are total with documented defaults — the
units value is never negative, a failed float conversion yields `0.0`, an
empty digit-strip yields `0`, and a produced record's numeric fields are
exactly these conversions of the corresponding cells (so a bad cell never
prevents the record). -/
theorem C7_numeric_conversions (s : String) (st : ParserState) (tds : List Cell) (c : Course) :
    0 ≤ parse_units s ∧
      (pyFloatOfClean (stripToDigitsDot s) = none → parse_units s = 0) ∧
      (stripToDigits s = "" → parse_int s = 0) ∧
      (parse_course_row st tds = some c →
        c.units = parse_units (getTdText tds 5) ∧
          c.enrollment.capacity = (if 15 < tds.length then parse_int (getTdText tds 15) else 0) ∧
          c.enrollment.actual = (if 16 < tds.length then parse_int (getTdText tds 16) else 0) ∧
          c.enrollment.remaining = (if 17 < tds.length then parse_int (getTdText tds 17) else 0) ∧
          c.weeks = (if 21 < tds.length then
            (if parse_int (getTdText tds 21) = 0 then 16 else parse_int (getTdText tds 21))
            else 16)) := by
  refine ⟨parse_units_nonneg s, ?_, ?_, ?_⟩
  · intro h
    simp only [parse_units]
    split_ifs
    · rfl
    · simp [h]
  · intro h
    simp only [parse_int]
    simp [h]
  · intro h
    obtain ⟨-, crn, -, -, rfl⟩ := parse_course_row_some h
    simp [assembleCourse]

/-- C7 witness: the units cell text `"invalid"` converts to `0.0` with no
failure, and the standard row's record carries exactly the converted
values. -/
theorem C7_numeric_conversions_witness :
    parse_units "invalid" = 0 ∧ courseEx.units = parse_units (getTdText dataRowEx 5) :=
  ⟨(C7_numeric_conversions "invalid" initState dataRowEx courseEx).2.1 (by decide),
   ((C7_numeric_conversions "invalid" initState dataRowEx courseEx).2.2.2 (by decide)).1⟩

/-- C8: a row on which the per-row handler produces nothing (its guards
fail or its exception is caught, both of which surface as `none`) is
skipped at that row's granularity: the pass continues and the accumulated
course list is exactly the one obtained without that row. -/
theorem C8_row_isolation (st : ParserState) (pre : List (List Cell)) (row : List Cell)
    (suf : List (List Cell))
    (hs : findSubjectHeaderTd row = none) (hc : findCourseHeaderTd row = none)
    (hp : parse_course_row (processRows st pre).1 row = none) :
    (processRows st (pre ++ row :: suf)).2 = (processRows st (pre ++ suf)).2 := by
  have hstep : stepRow (processRows st pre).1 row = ((processRows st pre).1, none) := by
    simp only [stepRow, hs, hc]
    split_ifs <;> simp [hp]
  rw [processRows_append_snd, processRows_append_snd]
  congr 1
  rw [processRows_cons_snd, hstep]

/-- C8 witness: the short popup-link row is skipped and the following row
still parses exactly as it does without the bad row. -/
theorem C8_row_isolation_witness :
    (processRows initState [popupOnlyRow, dataRowEx]).2 =
      (processRows initState [dataRowEx]).2 :=
  C8_row_isolation initState [] popupOnlyRow [dataRowEx] (by decide) (by decide) (by decide)

/-- C9 amended: every produced course has a non-empty `crn` (the theorem);
uniqueness within a pass is not enforced — two rows carrying the same popup
link text yield two distinct records with equal `crn` values
(the counterexample). -/
theorem C9_crn_nonempty {st : ParserState} {rows : List (List Cell)}
    {term term_code source_url : String} {now : Nat} {c : Course}
    (hc : c ∈ (parse_schedule_html st rows term term_code source_url now).1.courses) :
    c.crn ≠ "" := by
  rw [parse_schedule_html_courses] at hc
  obtain ⟨st', row, hp⟩ := mem_processRows hc
  obtain ⟨-, crn, -, hcrn, rfl⟩ := parse_course_row_some hp
  simpa [assembleCourse] using hcrn

/-- C9 witness: the standard row's course is in its pass's output and has a
non-empty CRN. -/
theorem C9_crn_nonempty_witness : courseEx.crn ≠ "" :=
  C9_crn_nonempty
    (show courseEx ∈ (parse_schedule_html initState [dataRowEx] "t" "tc" "u" 0).1.courses
      by decide)

/-- C9 counterexample: two data rows with the same CRN cell but different
instructors produce two distinct `Course` records with equal `crn` — the
parser does not enforce uniqueness within a pass. -/
theorem C9_crn_duplicated :
    ((parse_schedule_html initState [dataRowEx, dataRowEx2] "t" "tc" "u" 0).1.courses.map
        Course.crn = ["12345", "12345"]) ∧
      ((parse_schedule_html initState [dataRowEx, dataRowEx2] "t" "tc" "u" 0).1.courses.getD 0
          dummyCourse ≠
        (parse_schedule_html initState [dataRowEx, dataRowEx2] "t" "tc" "u" 0).1.courses.getD 1
          dummyCourse) := by
  decide

/-- C10: every produced course has a non-empty instructor, and when the
instructor cell is beyond the row's cell count or its stripped text is
empty the field is the literal `"TBA"`. -/
theorem C10_instructor_default {st : ParserState} {tds : List Cell} {c : Course}
    (h : parse_course_row st tds = some c) :
    c.instructor ≠ "" ∧
      ((tds.length ≤ 18 ∨ getTdText tds 18 = "") → c.instructor = "TBA") := by
  obtain ⟨-, crn, -, -, rfl⟩ := parse_course_row_some h
  simp only [assembleCourse]
  by_cases h18 : 18 < tds.length
  · rw [if_pos h18]
    by_cases he : getTdText tds 18 = ""
    · rw [he]
      exact ⟨by decide, fun _ => by decide⟩
    · by_cases ht : strTrim (getTdText tds 18) = ""
      · rw [if_pos (by simp [ht])]
        exact ⟨by decide, fun _ => by decide⟩
      · rw [if_neg (by simp [he, ht])]
        refine ⟨he, ?_⟩
        rintro (hlen | hempty)
        · omega
        · exact absurd hempty he
  · rw [if_neg h18]
    exact ⟨by decide, fun _ => by decide⟩

/-- C10 witness: the standard row carries its instructor cell text; the
15-cell row has no instructor cell and defaults to `"TBA"`. -/
theorem C10_instructor_default_witness :
    courseEx.instructor ≠ "" ∧ courseShortEx.instructor = "TBA" :=
  ⟨(C10_instructor_default
      (show parse_course_row initState dataRowEx = some courseEx by decide)).1,
   (C10_instructor_default
      (show parse_course_row initState shortRowEx = some courseShortEx by decide)).2
     (Or.inl (by decide))⟩

/-- C2 counterexample: on the returned aggregate the deprecated top-level
fields are `None` (moved into `metadata` by `model_post_init`), so neither
`total_courses == len(courses)` nor the `departments` equation holds on the
aggregate itself. -/
theorem C2_deprecated_fields_cleared :
    (parse_schedule_html initState [] "t" "tc" "u" 0).1.total_courses = none ∧
      (parse_schedule_html initState [] "t" "tc" "u" 0).1.departments = none ∧
      ¬((parse_schedule_html initState [] "t" "tc" "u" 0).1.total_courses =
          some (parse_schedule_html initState [] "t" "tc" "u" 0).1.courses.length ∧
        (parse_schedule_html initState [] "t" "tc" "u" 0).1.departments =
          some (sortedDedup
            ((parse_schedule_html initState [] "t" "tc" "u" 0).1.courses.map Course.subject))) := by
  decide

/-- C2 amended: the derived aggregates live in `metadata` — on every
returned aggregate `metadata['total_courses'] == len(courses)` and
`metadata['departments'] == sorted(unique subjects)`, while the deprecated
top-level `total_courses` / `departments` fields are cleared to `None`. -/
theorem C2_metadata_invariants (st : ParserState) (rows : List (List Cell))
    (term term_code source_url : String) (now : Nat) :
    (parse_schedule_html st rows term term_code source_url now).1.metadata =
        some ⟨some (parse_schedule_html st rows term term_code source_url now).1.courses.length,
          some (sortedDedup
            ((parse_schedule_html st rows term term_code source_url now).1.courses.map
              Course.subject))⟩ ∧
      (parse_schedule_html st rows term term_code source_url now).1.total_courses = none ∧
      (parse_schedule_html st rows term term_code source_url now).1.departments = none := by
  simp [parse_schedule_html, ScheduleData.model_post_init]

/-- C4 counterexample: a colspan meeting cell whose text contains `"arr"`
does not bypass the arrangement-marker check — the row yields `ARR`, not
the `ASYNC` entry its asynchronous-online location would dictate under the
claimed step-4 fallback. -/
theorem C4_colspan_arr_first :
    truthyAttr ((colspanRowEx.get? 6).bind Cell.colspan) = true ∧
      hasSub (strToLower (getTdText colspanRowEx 14)) "online" = true ∧
      hasSub (strToLower (getTdText colspanRowEx 14)) "async" = true ∧
      (parse_course_row initState colspanRowEx).map Course.meeting_times =
        some [⟨"ARR", none, none, true⟩] ∧
      (parse_course_row initState colspanRowEx).map Course.meeting_times ≠
        some [⟨"ASYNC", none, none, true⟩] := by
  decide

/-- C4 amended: when the first meeting-time cell carries a colspan, the
block is rewritten to seven empty slots plus the merged text, on which the
arrangement-marker check still runs first: the course gets the single
`ARR` entry when the merged text contains `"arr"` (case-insensitively),
and only otherwise the step-4 fallback of `ASYNC` (asynchronous online
location) or `TBA`. -/
theorem C4_colspan_fallback {st : ParserState} {tds : List Cell} {c : Course}
    (h : parse_course_row st tds = some c)
    (hcol : truthyAttr ((tds.get? 6).bind Cell.colspan) = true) :
    c.meeting_times =
      (if hasSub (strToLower (getTdText tds 6)) "arr" then [⟨"ARR", none, none, true⟩]
       else if hasSub (strToLower (getTdText tds 14)) "online" &&
           hasSub (strToLower (getTdText tds 14)) "async" then
         [⟨"ASYNC", none, none, true⟩]
       else [⟨"TBA", none, none, true⟩]) := by
  obtain ⟨h15, crn, -, -, rfl⟩ := parse_course_row_some h
  have h6 : 6 < tds.length := by omega
  have h14 : 14 < tds.length := by omega
  simp only [assembleCourse]
  rw [if_pos h6, if_pos hcol, if_pos h14]
  exact parse_meeting_times_colspan _ _

/-- C4 witness: the arranged-hours colspan row receives the `ARR` entry. -/
theorem C4_colspan_fallback_witness :
    courseColEx.meeting_times = [⟨"ARR", none, none, true⟩] := by
  have h := C4_colspan_fallback
    (show parse_course_row initState colspanRowEx = some courseColEx by decide) (by decide)
  rw [h]
  decide

/-- If a row's handling updates the context to `st'` and emits nothing, the
loop simply continues from `st'`. -/
theorem processRows_skip {st st' : ParserState} {row : List Cell}
    (h : stepRow st row = (st', none)) (rest : List (List Cell)) :
    processRows st (row :: rest) = processRows st' rest := by
  simp only [processRows, h]

/-- C6 counterexample: the parser instance's context survives across calls,
so the second `parse_schedule_html` call on the same instance sees the
subject left over from the first pass and labels the same data row
differently (`"ACCT"` instead of `"UNKNOWN"`). -/
theorem C6_reparse_differs :
    ((parse_schedule_html initState [dataRowEx, subjRowEx] "t" "tc" "u" 0).1.courses.map
        Course.subject = ["UNKNOWN"]) ∧
      ((parse_schedule_html (parse_schedule_html initState [dataRowEx, subjRowEx] "t" "tc" "u" 0).2
          [dataRowEx, subjRowEx] "t" "tc" "u" 0).1.courses.map Course.subject = ["ACCT"]) ∧
      (parse_schedule_html initState [dataRowEx, subjRowEx] "t" "tc" "u" 0).1.courses ≠
        (parse_schedule_html (parse_schedule_html initState [dataRowEx, subjRowEx] "t" "tc" "u" 0).2
          [dataRowEx, subjRowEx] "t" "tc" "u" 0).1.courses := by
  decide

/-- C6 amended: the pass is a pure function of the starting context and the
input — whenever a matching subject header followed by a course header
precedes all data rows, the result is independent of the starting context
altogether, so repeated parses (fresh or reused instance) agree; without
that guard a reused instance can differ, as the counterexample shows. -/
theorem C6_context_independent (st₁ st₂ : ParserState) (hdrS hdrC : List Cell)
    (rest : List (List Cell)) (term term_code source_url : String) (now : Nat)
    (hS : ∃ td, findSubjectHeaderTd hdrS = some td ∧ (matchSubjectCode (getText td)).isSome)
    (hCn : findSubjectHeaderTd hdrC = none)
    (hC : (findCourseHeaderTd hdrC).isSome) :
    (parse_schedule_html st₁ (hdrS :: hdrC :: rest) term term_code source_url now).1 =
      (parse_schedule_html st₂ (hdrS :: hdrC :: rest) term term_code source_url now).1 := by
  obtain ⟨td, hfind, hmatch⟩ := hS
  obtain ⟨code, hcode⟩ := Option.isSome_iff_exists.mp hmatch
  obtain ⟨td2, hfind2⟩ := Option.isSome_iff_exists.mp hC
  have e1 : processRows st₁ (hdrS :: hdrC :: rest) =
      processRows ⟨some code, some (getText td2)⟩ rest := by
    rw [processRows_skip
          (show stepRow st₁ hdrS = ({ st₁ with current_subject := some code }, none)
            by simp [stepRow, hfind, parse_subject_header, hcode]),
        processRows_skip
          (show stepRow { st₁ with current_subject := some code } hdrC =
              (⟨some code, some (getText td2)⟩, none)
            by simp [stepRow, hCn, hfind2, parse_course_header])]
  have e2 : processRows st₂ (hdrS :: hdrC :: rest) =
      processRows ⟨some code, some (getText td2)⟩ rest := by
    rw [processRows_skip
          (show stepRow st₂ hdrS = ({ st₂ with current_subject := some code }, none)
            by simp [stepRow, hfind, parse_subject_header, hcode]),
        processRows_skip
          (show stepRow { st₂ with current_subject := some code } hdrC =
              (⟨some code, some (getText td2)⟩, none)
            by simp [stepRow, hCn, hfind2, parse_course_header])]
  simp only [parse_schedule_html, e1, e2]

/-- C6 witness: with the guard satisfied, a fresh context and a stale
context produce identical aggregates on the same input. -/
theorem C6_context_independent_witness :
    (parse_schedule_html initState [subjRowEx, crseHdrRowEx, dataRowEx] "t" "tc" "u" 0).1 =
      (parse_schedule_html ⟨some "ZZZ", some "QQQ"⟩ [subjRowEx, crseHdrRowEx, dataRowEx]
        "t" "tc" "u" 0).1 :=
  C6_context_independent initState ⟨some "ZZZ", some "QQQ"⟩ subjRowEx crseHdrRowEx [dataRowEx]
    "t" "tc" "u" 0
    ⟨⟨["subject_header"], none, [], [], "ACCT - Accounting"⟩, by decide, by decide⟩
    (by decide) (by decide)
